import Mathlib

/-!
Verification of the NetDAQ channel-configuration encoder.

The development shallowly embeds the two source files of the repository:
`src/config.py` (the monolithic channel hierarchy and the device
configuration aggregate) and `src/lib/config/channels/analog.py` (the
per-variant analog channels with constructor-time validation).

Modelling conventions:
* Python `bytes` values produced by the primitive codec are modelled as a
  free monoid over opaque codec tokens (`Chunk`), because the spec treats
  the fixed-width integer/float/bit encoders as external collaborators
  whose byte patterns are protocol constants.
* Python `float` fields are modelled as `ℚ`; the claims under study
  concern comparisons and exact arithmetic formulas, not rounding.
* A constructor that can raise `ConfigError` is modelled by a
  `post_init : Except String Unit` mirroring `__post_init__`; an abstract
  method that raises `NotImplementedError` is modelled by `Option`.
-/

namespace NetDAQ

/-- Opaque codec token: one output of the primitive byte-encoding routines
(`make_int`, `make_float`, `make_optional_indexed_bit`) or one raw byte of
an equation instruction stream. -/
inductive Chunk where
  | intB (n : Int)
  | floatB (q : ℚ)
  | optBit (o : Option Nat)
  | byteB (b : Nat)
deriving DecidableEq, Repr

/-- A byte string is a list of codec tokens. -/
abbrev Bytes := List Chunk

/-- Modelled from the spec: `encoding.py` is not under `src`; `make_int`
encodes a fixed-width integer, treated as an opaque injective token. -/
def make_int (n : Int) : Bytes := [Chunk.intB n]

/-- Modelled from the spec: `encoding.py` is not under `src`; `make_float`
encodes a fixed-width float, treated as an opaque injective token. -/
def make_float (q : ℚ) : Bytes := [Chunk.floatB q]

/-- Modelled from the spec: `encoding.py` is not under `src`;
`make_optional_indexed_bit` encodes an optional digital line index, with
"none" distinct from every index. -/
def make_optional_indexed_bit (o : Option Nat) : Bytes := [Chunk.optBit o]

/-- Modelled from the spec: `NULL_INTEGER` is the encoding of integer 0. -/
def NULL_INTEGER : Bytes := make_int 0

/-- Modelled from the spec: `ZERO_INT` is the encoding of integer 0 (the
name used by `src/lib`). -/
def ZERO_INT : Bytes := make_int 0

/-- Raw opaque bytes (an equation instruction stream) embedded into the
byte-string model, one token per byte. -/
def raw_bytes (bs : List Nat) : Bytes := bs.map Chunk.byteB

/-- Modelled from the spec: `enums.py` is not under `src`; alarm modes are
OFF or one of several comparison modes, with an opaque 2-bit numeric code. -/
inductive DAQConfigAlarm where
  | OFF
  | LOW
  | HIGH
deriving DecidableEq, Repr

/-- Numeric code of an alarm mode (opaque lookup table; values chosen to
fit the 2-bit packing the spec describes). -/
def DAQConfigAlarm.value : DAQConfigAlarm → Nat
  | .OFF => 0
  | .LOW => 1
  | .HIGH => 2

/-- Modelled from the spec: `enums.py` is not under `src`; analog
measurement types of `src/config.py`. -/
inductive DAQAnalogMeasuremenType where
  | OFF
  | Ohms
  | Ohms_4Wire
  | RTD
  | Thermocouple
  | Current
  | VDC
  | VAC
  | Frequency
deriving DecidableEq, Repr

/-- Numeric code of an analog measurement type (opaque lookup table). -/
def DAQAnalogMeasuremenType.value : DAQAnalogMeasuremenType → Nat
  | .OFF => 0
  | .Ohms => 1
  | .Ohms_4Wire => 2
  | .RTD => 3
  | .Thermocouple => 4
  | .Current => 5
  | .VDC => 6
  | .VAC => 7
  | .Frequency => 8

/-- Modelled from the spec: `enums.py` is not under `src`; the single range
enumeration used by the monolithic `src/config.py`. -/
inductive DAQRange where
  | NONE
  | Ohms_300
  | Ohms_3k
  | Ohms_30k
  | Current_20mA
  | Current_100mA
  | VDC_3V
deriving DecidableEq, Repr

/-- Numeric code of a range (opaque lookup table). -/
def DAQRange.value : DAQRange → Nat
  | .NONE => 0
  | .Ohms_300 => 1
  | .Ohms_3k => 2
  | .Ohms_30k => 3
  | .Current_20mA => 4
  | .Current_100mA => 5
  | .VDC_3V => 6

/-- Modelled from the spec: `enums.py` is not under `src`; computed
measurement types. -/
inductive DAQComputedMeasurementType where
  | Average
  | AminusB
  | Equation
deriving DecidableEq, Repr

/-- Numeric code of a computed measurement type (opaque lookup table). -/
def DAQComputedMeasurementType.value : DAQComputedMeasurementType → Nat
  | .Average => 1
  | .AminusB => 2
  | .Equation => 3

/-- Modelled from the spec: `enums.py` is not under `src`; sample speeds. -/
inductive DAQConfigSpeed where
  | SLOW
  | MEDIUM
  | FAST
deriving DecidableEq, Repr

/-- Numeric code of a speed (opaque lookup table; a low 2-bit field,
disjoint from the flag bits, as the spec's bitfield assembly requires). -/
def DAQConfigSpeed.value : DAQConfigSpeed → Nat
  | .SLOW => 0
  | .MEDIUM => 1
  | .FAST => 2

/-- Modelled from the spec: `enums.py` is not under `src`; global flag
bits ORed into the device configuration bitfield. -/
inductive DAQConfigBits where
  | DRIFT_CORRECTION
  | TRIGGER_OUT
  | FAHRENHEIT
  | TOTALIZER_DEBOUNCE
deriving DecidableEq, Repr

/-- Numeric code of a flag bit (opaque lookup table; distinct single bits,
disjoint from speed and trigger codes, as the spec's bitfield assembly
requires). -/
def DAQConfigBits.value : DAQConfigBits → Nat
  | .DRIFT_CORRECTION => 0x10
  | .TRIGGER_OUT => 0x20
  | .FAHRENHEIT => 0x40
  | .TOTALIZER_DEBOUNCE => 0x80

/-- Modelled from the spec: `enums.py` is not under `src`; trigger-source
flags. -/
inductive DAQConfigTrigger where
  | INTERVAL
  | EXTERNAL
  | ALARM
deriving DecidableEq, Repr

/-- Numeric code of a trigger-source flag (opaque lookup table; distinct
single bits, disjoint from the other bitfield components). -/
def DAQConfigTrigger.value : DAQConfigTrigger → Nat
  | .INTERVAL => 0x100
  | .EXTERNAL => 0x200
  | .ALARM => 0x400

/-- Base channel record of `src/config.py` (class `DAQChannel`): common
alarm and calibration fields shared by every variant. -/
structure DAQChannel where
  use_channel_as_alarm_trigger : Bool := true
  alarm1_mode : DAQConfigAlarm := .OFF
  alarm2_mode : DAQConfigAlarm := .OFF
  alarm1_level : ℚ := 0
  alarm2_level : ℚ := 0
  alarm1_digital : Option Nat := none
  alarm2_digital : Option Nat := none
  mxab_multuplier : ℚ := 1
  mxab_offset : ℚ := 0
deriving DecidableEq, Repr

/-- `DAQChannel.alarm_bits` of `src/config.py`. -/
def DAQChannel.alarm_bits (c : DAQChannel) : Nat :=
  let result := if c.use_channel_as_alarm_trigger then 0x01 else 0x00
  let result := result ||| (c.alarm1_mode.value <<< 1)
  let result := result ||| (c.alarm2_mode.value <<< 3)
  result

/-- `DAQChannel.write_common_trailer` of `src/config.py`. -/
def DAQChannel.write_common_trailer (c : DAQChannel) : Bytes :=
  make_int c.alarm_bits
    ++ make_float c.alarm1_level
    ++ make_float c.alarm2_level
    ++ make_optional_indexed_bit c.alarm1_digital
    ++ make_optional_indexed_bit c.alarm2_digital
    ++ make_float c.mxab_multuplier
    ++ make_float c.mxab_offset

/-- `DAQAnalogChannel` of `src/config.py` (the monolithic analog class). -/
structure DAQAnalogChannel extends DAQChannel where
  mtype : DAQAnalogMeasuremenType := .OFF
  aux1 : ℚ := 0
  aux2 : ℚ := 0
  open_thermocouple_detect : Bool := true
  range : DAQRange := .NONE
deriving DecidableEq, Repr

/-- `DAQAnalogChannel.extra_bits` of `src/config.py`. -/
def DAQAnalogChannel.extra_bits (c : DAQAnalogChannel) : Nat :=
  if c.mtype = .Ohms then 0x9000
  else if c.mtype = .Ohms_4Wire ∨ c.mtype = .RTD then 0x9001
  else if c.mtype = .Thermocouple then
    (if c.open_thermocouple_detect then 0x0001 else 0x0000)
  else if c.mtype = .Current then
    (if c.range = .Current_20mA then 0x7000 else 0x7001)
  else 0x0000

/-- `DAQAnalogChannel.write` of `src/config.py`. -/
def DAQAnalogChannel.write (c : DAQAnalogChannel) : Bytes :=
  make_int c.mtype.value
    ++ make_int c.range.value
    ++ make_float c.aux1
    ++ make_float c.aux2
    ++ make_int c.extra_bits
    ++ c.toDAQChannel.write_common_trailer

/-- `DAQComputedAverageChannel` of `src/config.py`. -/
structure DAQComputedAverageChannel extends DAQChannel where
  channel_bitmask : Int
deriving DecidableEq, Repr

/-- `DAQComputedAverageChannel.write` of `src/config.py`. -/
def DAQComputedAverageChannel.write (c : DAQComputedAverageChannel) : Bytes :=
  make_int DAQComputedMeasurementType.Average.value
    ++ NULL_INTEGER
    ++ NULL_INTEGER
    ++ NULL_INTEGER
    ++ make_int c.channel_bitmask
    ++ c.toDAQChannel.write_common_trailer

/-- `DAQComputedAminusBChannel` of `src/config.py`. -/
structure DAQComputedAminusBChannel extends DAQChannel where
  channel_a : Int
  channel_b : Int
deriving DecidableEq, Repr

/-- `DAQComputedAminusBChannel.write` of `src/config.py`. -/
def DAQComputedAminusBChannel.write (c : DAQComputedAminusBChannel) : Bytes :=
  make_int DAQComputedMeasurementType.AminusB.value
    ++ NULL_INTEGER
    ++ make_int c.channel_a
    ++ NULL_INTEGER
    ++ make_int c.channel_b
    ++ c.toDAQChannel.write_common_trailer

/-- `DAQComputedAminusAvgChannel` of `src/config.py`. -/
structure DAQComputedAminusAvgChannel extends DAQChannel where
  channel_a : Int
  channel_bitmask : Int
deriving DecidableEq, Repr

/-- `DAQComputedAminusAvgChannel.write` of `src/config.py` (same wire type
code as A minus B). -/
def DAQComputedAminusAvgChannel.write (c : DAQComputedAminusAvgChannel) : Bytes :=
  make_int DAQComputedMeasurementType.AminusB.value
    ++ NULL_INTEGER
    ++ make_int c.channel_a
    ++ NULL_INTEGER
    ++ make_int c.channel_bitmask
    ++ c.toDAQChannel.write_common_trailer

/-- `DAQComputedEquationChannel` of `src/config.py`; `equation` is an
opaque byte string. -/
structure DAQComputedEquationChannel extends DAQChannel where
  equation : List Nat := []
deriving DecidableEq, Repr

/-- `DAQComputedEquationChannel.write_with_aux` of `src/config.py`: the
only override of the base `write_with_aux`. -/
def DAQComputedEquationChannel.write_with_aux (c : DAQComputedEquationChannel)
    (aux_offset : Int) : Bytes × Bytes :=
  (make_int DAQComputedMeasurementType.Equation.value
      ++ NULL_INTEGER
      ++ NULL_INTEGER
      ++ NULL_INTEGER
      ++ make_int aux_offset
      ++ c.toDAQChannel.write_common_trailer,
    raw_bytes c.equation)

/-- The closed set of concrete channel classes of `src/config.py`, used to
model Python dynamic dispatch. -/
inductive AnyDAQChannel where
  | analog (c : DAQAnalogChannel)
  | average (c : DAQComputedAverageChannel)
  | aminusB (c : DAQComputedAminusBChannel)
  | aminusAvg (c : DAQComputedAminusAvgChannel)
  | equation (c : DAQComputedEquationChannel)
deriving DecidableEq, Repr

/-- Dynamically dispatched `write()`: the base `DAQChannel.write` raises
`NotImplementedError` (modelled as `none`) unless the concrete class
overrides it; `DAQComputedEquationChannel` overrides only
`write_with_aux`, not `write`, so its `write` is the raising base method. -/
def AnyDAQChannel.write : AnyDAQChannel → Option Bytes
  | .analog c => some c.write
  | .average c => some c.write
  | .aminusB c => some c.write
  | .aminusAvg c => some c.write
  | .equation _ => none

/-- The base class default `DAQChannel.write_with_aux` of `src/config.py`:
it returns `(self.write(), b'')`, so it raises exactly when `write()`
raises. -/
def AnyDAQChannel.write_with_aux_default (ch : AnyDAQChannel)
    (aux_offset : Int) : Option (Bytes × Bytes) :=
  ch.write.map (fun b => (b, []))

/-- Dynamically dispatched `write_with_aux`: the Equation channel's
override where present, the base default everywhere else. -/
def AnyDAQChannel.write_with_aux (ch : AnyDAQChannel)
    (aux_offset : Int) : Option (Bytes × Bytes) :=
  match ch with
  | .equation c => some (c.write_with_aux aux_offset)
  | ch => ch.write_with_aux_default aux_offset

/-- `DAQConfiguration` of `src/config.py`: the device configuration
aggregate. -/
structure DAQConfiguration where
  speed : DAQConfigSpeed := .SLOW
  temperature_fahrenheit : Bool := false
  trigger_out : Bool := false
  drift_correction : Bool := true
  totalizer_debounce : Bool := true
  triggers : List DAQConfigTrigger := [.INTERVAL]
  interval_time : ℚ := 1
  alarm_time : ℚ := 1
  analog_channels : List DAQAnalogChannel := []
  computed_channels : List AnyDAQChannel := []
deriving DecidableEq, Repr

/-- `DAQConfiguration.bits` of `src/config.py`. -/
def DAQConfiguration.bits (cfg : DAQConfiguration) : Nat :=
  let result := cfg.speed.value
  let result :=
    if cfg.drift_correction ∨ cfg.speed ≠ DAQConfigSpeed.FAST then
      result ||| DAQConfigBits.DRIFT_CORRECTION.value
    else result
  let result :=
    if cfg.trigger_out then result ||| DAQConfigBits.TRIGGER_OUT.value else result
  let result :=
    if cfg.temperature_fahrenheit then result ||| DAQConfigBits.FAHRENHEIT.value
    else result
  let result :=
    if cfg.totalizer_debounce then result ||| DAQConfigBits.TOTALIZER_DEBOUNCE.value
    else result
  cfg.triggers.foldl (fun r trig => r ||| trig.value) result

namespace Analog

/-- Modelled from the spec: `enums.py` is not under `src`; ohms ranges of
the per-variant hierarchy. -/
inductive DAQOhmsRange where
  | Ohms_300
  | Ohms_3k
  | Ohms_30k
  | Ohms_300k
  | Ohms_3M
deriving DecidableEq, Repr

/-- Numeric code of an ohms range (opaque lookup table). -/
def DAQOhmsRange.value : DAQOhmsRange → Nat
  | .Ohms_300 => 1
  | .Ohms_3k => 2
  | .Ohms_30k => 3
  | .Ohms_300k => 4
  | .Ohms_3M => 5

/-- Modelled from the spec: `enums.py` is not under `src`; DC voltage
ranges. -/
inductive DAQVDCRange where
  | VDC_300mV
  | VDC_3V
  | VDC_30V
  | VDC_300V
deriving DecidableEq, Repr

/-- Numeric code of a DC voltage range (opaque lookup table). -/
def DAQVDCRange.value : DAQVDCRange → Nat
  | .VDC_300mV => 1
  | .VDC_3V => 2
  | .VDC_30V => 3
  | .VDC_300V => 4

/-- Modelled from the spec: `enums.py` is not under `src`; AC voltage
ranges. -/
inductive DAQVACRange where
  | VAC_300mV
  | VAC_3V
  | VAC_30V
  | VAC_300V
deriving DecidableEq, Repr

/-- Numeric code of an AC voltage range (opaque lookup table). -/
def DAQVACRange.value : DAQVACRange → Nat
  | .VAC_300mV => 1
  | .VAC_3V => 2
  | .VAC_30V => 3
  | .VAC_300V => 4

/-- Modelled from the spec: `enums.py` is not under `src`; thermocouple
ranges (probe types). -/
inductive DAQThermocoupleRange where
  | TC_J
  | TC_K
  | TC_T
deriving DecidableEq, Repr

/-- Numeric code of a thermocouple range (opaque lookup table). -/
def DAQThermocoupleRange.value : DAQThermocoupleRange → Nat
  | .TC_J => 1
  | .TC_K => 2
  | .TC_T => 3

/-- Modelled from the spec: `enums.py` is not under `src`; RTD ranges, the
fixed-385 and custom-385 variants named by the spec. -/
inductive DAQRTDRange where
  | RTD_FIXED_385
  | RTD_CUSTOM_385
deriving DecidableEq, Repr

/-- Numeric code of an RTD range (opaque lookup table). -/
def DAQRTDRange.value : DAQRTDRange → Nat
  | .RTD_FIXED_385 => 1
  | .RTD_CUSTOM_385 => 2

/-- Modelled from the spec: `enums.py` is not under `src`; the selectable
current ranges, 20 mA and 100 mA, the two named by the spec. -/
inductive DAQCurrentRange where
  | Current_20mA
  | Current_100mA
deriving DecidableEq, Repr

/-- Numeric code of a current range (opaque lookup table). -/
def DAQCurrentRange.value : DAQCurrentRange → Nat
  | .Current_20mA => 1
  | .Current_100mA => 2

/-- Modelled from the spec: `lib/config/channels/base.py` is not under
`src`. Per the spec, the base class computes the common trailer as the
fixed concatenation of alarm bits, alarm levels, optional digital-line
bits, and two overridable effective-calibration hooks
(`_modified_mxab_multiplier` / `_modified_mxab_offset`) that default to
the raw calibration fields; the hooks' values are passed here explicitly. -/
def encode_common_trailer (c : DAQChannel)
    (modified_mxab_multiplier modified_mxab_offset : ℚ) : Bytes :=
  make_int c.alarm_bits
    ++ make_float c.alarm1_level
    ++ make_float c.alarm2_level
    ++ make_optional_indexed_bit c.alarm1_digital
    ++ make_optional_indexed_bit c.alarm2_digital
    ++ make_float modified_mxab_multiplier
    ++ make_float modified_mxab_offset

/-- `DAQAnalogOhmsChannel` of `src/lib/config/channels/analog.py`. -/
structure DAQAnalogOhmsChannel extends DAQChannel where
  range : DAQOhmsRange
  four_wire : Bool := false
deriving DecidableEq, Repr

/-- `DAQAnalogOhmsChannel.__post_init__`: raises `ConfigError` (modelled
as `Except.error`) for a 2-wire measurement on the 300 Ω or 3 kΩ range. -/
def DAQAnalogOhmsChannel.post_init (c : DAQAnalogOhmsChannel) :
    Except String Unit :=
  if c.four_wire = false ∧
      (c.range = DAQOhmsRange.Ohms_300 ∨ c.range = DAQOhmsRange.Ohms_3k) then
    .error "2-wire ohms measurement is not supported for 300 or 3k Ohms range"
  else .ok ()

/-- `DAQAnalogOhmsChannel.encode` of `src/lib/config/channels/analog.py`. -/
def DAQAnalogOhmsChannel.encode (c : DAQAnalogOhmsChannel) : Bytes :=
  let extra_bits : Nat := 0x9000 ||| (if c.four_wire then 0x0001 else 0)
  make_int DAQAnalogMeasuremenType.Ohms.value
    ++ make_int c.range.value
    ++ ZERO_INT
    ++ ZERO_INT
    ++ make_int extra_bits
    ++ encode_common_trailer c.toDAQChannel c.mxab_multuplier c.mxab_offset

/-- `DAQAnalogVDCChannel` of `src/lib/config/channels/analog.py`. -/
structure DAQAnalogVDCChannel extends DAQChannel where
  range : DAQVDCRange
deriving DecidableEq, Repr

/-- `DAQAnalogVDCChannel.encode`. -/
def DAQAnalogVDCChannel.encode (c : DAQAnalogVDCChannel) : Bytes :=
  make_int DAQAnalogMeasuremenType.VDC.value
    ++ make_int c.range.value
    ++ ZERO_INT
    ++ ZERO_INT
    ++ ZERO_INT
    ++ encode_common_trailer c.toDAQChannel c.mxab_multuplier c.mxab_offset

/-- `DAQAnalogVACChannel` of `src/lib/config/channels/analog.py`. -/
structure DAQAnalogVACChannel extends DAQChannel where
  range : DAQVACRange
deriving DecidableEq, Repr

/-- `DAQAnalogVACChannel.encode`. -/
def DAQAnalogVACChannel.encode (c : DAQAnalogVACChannel) : Bytes :=
  make_int DAQAnalogMeasuremenType.VAC.value
    ++ make_int c.range.value
    ++ ZERO_INT
    ++ ZERO_INT
    ++ ZERO_INT
    ++ encode_common_trailer c.toDAQChannel c.mxab_multuplier c.mxab_offset

/-- `DAQAnalogFrequencyChannel` of `src/lib/config/channels/analog.py`. -/
structure DAQAnalogFrequencyChannel extends DAQChannel where
deriving DecidableEq, Repr

/-- `DAQAnalogFrequencyChannel.encode`. -/
def DAQAnalogFrequencyChannel.encode (c : DAQAnalogFrequencyChannel) : Bytes :=
  make_int DAQAnalogMeasuremenType.Frequency.value
    ++ ZERO_INT
    ++ ZERO_INT
    ++ ZERO_INT
    ++ ZERO_INT
    ++ encode_common_trailer c.toDAQChannel c.mxab_multuplier c.mxab_offset

/-- `DAQAnalogRTDChannel` of `src/lib/config/channels/analog.py`. -/
structure DAQAnalogRTDChannel extends DAQChannel where
  range : DAQRTDRange
  alpha : ℚ := 0
  r0 : ℚ
deriving DecidableEq, Repr

/-- `DAQAnalogRTDChannel.__post_init__`: validates `r0` against
[10, 1010] and `alpha` against the selected RTD range. -/
def DAQAnalogRTDChannel.post_init (c : DAQAnalogRTDChannel) :
    Except String Unit :=
  if c.r0 < 10 ∨ c.r0 > 1010 then
    .error "Custom RTD R0 value must be between 10 and 1010 Ohms"
  else if c.range = DAQRTDRange.RTD_FIXED_385 then
    if c.alpha ≠ 0 then
      .error "Fixed RTD does not allow for Alpha value to be set"
    else .ok ()
  else if c.range = DAQRTDRange.RTD_CUSTOM_385 then
    if c.alpha < 0.00374 ∨ c.alpha > 0.00393 then
      .error "Custom RTD Alpha value must be between 0.00374 and 0.00393"
    else .ok ()
  else .ok ()

/-- `DAQAnalogRTDChannel.encode`. -/
def DAQAnalogRTDChannel.encode (c : DAQAnalogRTDChannel) : Bytes :=
  make_int DAQAnalogMeasuremenType.RTD.value
    ++ make_int c.range.value
    ++ make_float c.alpha
    ++ make_float c.r0
    ++ make_int 0x9001
    ++ encode_common_trailer c.toDAQChannel c.mxab_multuplier c.mxab_offset

/-- `DAQAnalogThermocoupleChannel` of `src/lib/config/channels/analog.py`. -/
structure DAQAnalogThermocoupleChannel extends DAQChannel where
  range : DAQThermocoupleRange
  open_thermocouple_detect : Bool := true
deriving DecidableEq, Repr

/-- `DAQAnalogThermocoupleChannel.encode`. -/
def DAQAnalogThermocoupleChannel.encode (c : DAQAnalogThermocoupleChannel) :
    Bytes :=
  let extra_bits : Nat :=
    0x0000 ||| (if c.open_thermocouple_detect then 0x0001 else 0)
  make_int DAQAnalogMeasuremenType.Thermocouple.value
    ++ make_int c.range.value
    ++ ZERO_INT
    ++ ZERO_INT
    ++ make_int extra_bits
    ++ encode_common_trailer c.toDAQChannel c.mxab_multuplier c.mxab_offset

/-- `DAQAnalogCurrentChannel` of `src/lib/config/channels/analog.py`. -/
structure DAQAnalogCurrentChannel extends DAQChannel where
  range : DAQCurrentRange
  shunt_resistance : ℚ
deriving DecidableEq, Repr

/-- `DAQAnalogCurrentChannel.__post_init__`: validates the shunt
resistance against [10, 250]. -/
def DAQAnalogCurrentChannel.post_init (c : DAQAnalogCurrentChannel) :
    Except String Unit :=
  if c.shunt_resistance < 10 ∨ c.shunt_resistance > 250 then
    .error "Shunt resistance must be between 10 and 250 Ohms"
  else .ok ()

/-- `DAQAnalogCurrentChannel._modified_mxab_multiplier`: the effective
calibration multiplier hook. -/
def DAQAnalogCurrentChannel.modified_mxab_multiplier
    (c : DAQAnalogCurrentChannel) : ℚ :=
  let modified_multiplier := c.mxab_multuplier * (1 / c.shunt_resistance)
  if c.range = DAQCurrentRange.Current_20mA then modified_multiplier * 6250
  else modified_multiplier

/-- `DAQAnalogCurrentChannel._modified_mxab_offset`: the effective
calibration offset hook. -/
def DAQAnalogCurrentChannel.modified_mxab_offset
    (c : DAQAnalogCurrentChannel) : ℚ :=
  if c.range = DAQCurrentRange.Current_20mA then c.mxab_offset - 25
  else c.mxab_offset

/-- `DAQAnalogCurrentChannel.encode`. -/
def DAQAnalogCurrentChannel.encode (c : DAQAnalogCurrentChannel) : Bytes :=
  let extra_bits : Nat :=
    0x7000 ||| (if c.range = DAQCurrentRange.Current_100mA then 0x0001 else 0)
  make_int DAQAnalogMeasuremenType.Current.value
    ++ make_int c.range.value
    ++ make_float c.shunt_resistance
    ++ ZERO_INT
    ++ make_int extra_bits
    ++ encode_common_trailer c.toDAQChannel c.modified_mxab_multiplier
        c.modified_mxab_offset

end Analog

/-- Bitwise OR of the numeric codes of a trigger list, the quantity the
device bitfield actually depends on. -/
def trigger_or (l : List DAQConfigTrigger) : Nat :=
  l.foldr (fun t acc => t.value ||| acc) 0

/-- A concrete validly-constructible Current channel (20 mA range, 100 Ω
shunt), used as a witness input. -/
def current_channel_example : Analog.DAQAnalogCurrentChannel :=
  { range := Analog.DAQCurrentRange.Current_20mA, shunt_resistance := 100 }

/-- A concrete monolithic analog channel configured as a Current channel
on the 100 mA range, used as a witness input. -/
def current_monolithic_example : DAQAnalogChannel :=
  { mtype := DAQAnalogMeasuremenType.Current, range := DAQRange.Current_100mA }

theorem foldl_lor_eq (l : List DAQConfigTrigger) (r : Nat) :
    l.foldl (fun r trig => r ||| trig.value) r = r ||| trigger_or l := by
  induction l generalizing r with
  | nil => simp [trigger_or]
  | cons t l ih =>
    rw [List.foldl_cons, ih]
    show (r ||| t.value) ||| trigger_or l = r ||| trigger_or (t :: l)
    rw [Nat.lor_assoc]
    rfl

theorem trigger_or_perm {l₁ l₂ : List DAQConfigTrigger} (h : l₁.Perm l₂) :
    trigger_or l₁ = trigger_or l₂ := by
  induction h with
  | nil => rfl
  | cons x _ ih =>
    show x.value ||| trigger_or _ = x.value ||| trigger_or _
    rw [ih]
  | swap x y l =>
    show y.value ||| (x.value ||| trigger_or l) = x.value ||| (y.value ||| trigger_or l)
    rw [← Nat.lor_assoc, ← Nat.lor_assoc, Nat.lor_comm y.value x.value]
  | trans _ _ ih₁ ih₂ => exact ih₁.trans ih₂

theorem trigger_or_mem_absorb {t : DAQConfigTrigger} {l : List DAQConfigTrigger}
    (h : t ∈ l) : t.value ||| trigger_or l = trigger_or l := by
  induction l with
  | nil => cases h
  | cons x l ih =>
    rcases List.mem_cons.mp h with h | h
    · subst h
      show t.value ||| (t.value ||| trigger_or l) = t.value ||| trigger_or l
      rw [← Nat.lor_assoc]
      congr 1
      cases t <;> decide
    · show t.value ||| (x.value ||| trigger_or l) = x.value ||| trigger_or l
      rw [← Nat.lor_assoc, Nat.lor_comm t.value x.value, Nat.lor_assoc, ih h]

theorem trigger_fold_testBit (l : List DAQConfigTrigger) (r : Nat) :
    (l.foldl (fun r trig => r ||| trig.value) r).testBit 4 = r.testBit 4 := by
  rw [foldl_lor_eq, Nat.testBit_lor]
  suffices h : (trigger_or l).testBit 4 = false by rw [h, Bool.or_false]
  induction l with
  | nil => rfl
  | cons t l ih =>
    show (t.value ||| trigger_or l).testBit 4 = false
    rw [Nat.testBit_lor, ih, Bool.or_false]
    cases t <;> decide

/-- C2: for every channel, the common trailer is the concatenation, in
exactly this order, of the alarm bits as int, the two alarm levels as
floats, the two optional digital-line indices as optional indexed bits,
and the effective calibration multiplier and offset as floats (in
`src/config.py` the effective values are the raw
`mxab_multuplier`/`mxab_offset` fields, i.e. the defaults). -/
theorem C2_common_trailer (c : DAQChannel) :
    c.write_common_trailer =
      [Chunk.intB (Int.ofNat c.alarm_bits),
        Chunk.floatB c.alarm1_level,
        Chunk.floatB c.alarm2_level,
        Chunk.optBit c.alarm1_digital,
        Chunk.optBit c.alarm2_digital,
        Chunk.floatB c.mxab_multuplier,
        Chunk.floatB c.mxab_offset] := rfl

/-- C3: for every channel, `alarm_bits()` equals the bitwise OR of the
trigger flag at bit 0, the alarm-1 mode code shifted left by 1, and the
alarm-2 mode code shifted left by 3. -/
theorem C3_alarm_bits (c : DAQChannel) :
    c.alarm_bits =
      ((if c.use_channel_as_alarm_trigger then 1 else 0)
          ||| (c.alarm1_mode.value <<< 1))
        ||| (c.alarm2_mode.value <<< 3) := rfl

/-- C9: for every Equation computed channel and every aux offset, the
auxiliary half of `write_with_aux` is the original equation byte sequence
unmodified (one token per original byte, in order), and the main payload
is the Equation type code, three zero int slots, the aux offset as int,
then the common trailer. -/
theorem C9_equation_write_with_aux (c : DAQComputedEquationChannel)
    (aux_offset : Int) :
    (c.write_with_aux aux_offset).2 = c.equation.map Chunk.byteB ∧
    (c.write_with_aux aux_offset).1 =
      [Chunk.intB (Int.ofNat DAQComputedMeasurementType.Equation.value),
        Chunk.intB 0, Chunk.intB 0, Chunk.intB 0,
        Chunk.intB aux_offset]
        ++ c.toDAQChannel.write_common_trailer := ⟨rfl, rfl⟩

/-- C1 counterexample: the Equation computed channel constructs
successfully but overrides only `write_with_aux`, not `write`; on it the
inherited `write()` — and hence the base-class default `write_with_aux`,
which calls `write()` — raises `NotImplementedError` (modelled as `none`),
contradicting the claim that the default `write_with_aux` succeeds on
every constructible concrete variant including the Equation channel. -/
theorem C1_counterexample :
    AnyDAQChannel.write_with_aux_default
        (AnyDAQChannel.equation { equation := [1, 2, 3] }) 0 = none ∧
      AnyDAQChannel.write
        (AnyDAQChannel.equation { equation := [1, 2, 3] }) = none :=
  ⟨rfl, rfl⟩

/-- C1 (amended): the dynamically dispatched encode entry point
`write_with_aux` never raises on any constructible concrete variant
(the Equation channel through its own override), and `write()` never
raises on every concrete variant other than the Equation channel, which
does not implement it. -/
theorem C1_encode_never_raises :
    (∀ (ch : AnyDAQChannel) (off : Int), (ch.write_with_aux off).isSome = true) ∧
    (∀ ch : AnyDAQChannel,
      (∀ c, ch ≠ AnyDAQChannel.equation c) → ch.write.isSome = true) := by
  constructor
  · intro ch off
    cases ch <;> rfl
  · intro ch h
    cases ch <;> first | rfl | exact absurd rfl (h _)

/-- C1 amended witness: a concrete analog channel on which both parts of
the amended statement hold, with the hypothesis discharged. -/
theorem C1_encode_never_raises_witness :
    ((AnyDAQChannel.analog {}).write_with_aux 0).isSome = true ∧
      (AnyDAQChannel.analog {}).write.isSome = true :=
  ⟨C1_encode_never_raises.1 (AnyDAQChannel.analog {}) 0,
    C1_encode_never_raises.2 (AnyDAQChannel.analog {})
      (fun _ h => AnyDAQChannel.noConfusion h)⟩

/-- C4: constructing an Ohms analog channel succeeds exactly when the
channel is four-wire or the range is neither 300 Ω nor 3 kΩ; equivalently,
`four_wire = false` with range 300 Ω or 3 kΩ raises a configuration
error, and every other combination succeeds. -/
theorem C4_ohms_validation (c : Analog.DAQAnalogOhmsChannel) :
    c.post_init = Except.ok () ↔
      (c.four_wire = true ∨
        (c.range ≠ Analog.DAQOhmsRange.Ohms_300 ∧
          c.range ≠ Analog.DAQOhmsRange.Ohms_3k)) := by
  rcases c with ⟨base, range, fw⟩
  cases range <;> cases fw <;>
    simp [Analog.DAQAnalogOhmsChannel.post_init]

/-- C5: constructing an RTD analog channel succeeds exactly when `r0` lies
in the inclusive interval [10, 1010], the fixed-385 range forces
`alpha = 0`, and the custom-385 range forces `alpha` into the inclusive
interval [0.00374, 0.00393]; any violation raises a configuration error. -/
theorem C5_rtd_validation (c : Analog.DAQAnalogRTDChannel) :
    c.post_init = Except.ok () ↔
      ((10 ≤ c.r0 ∧ c.r0 ≤ 1010) ∧
        (c.range = Analog.DAQRTDRange.RTD_FIXED_385 → c.alpha = 0) ∧
        (c.range = Analog.DAQRTDRange.RTD_CUSTOM_385 →
          (0.00374 ≤ c.alpha ∧ c.alpha ≤ 0.00393))) := by
  rcases c with ⟨base, range, alpha, r0⟩
  cases range <;>
    simp [Analog.DAQAnalogRTDChannel.post_init] <;>
    split_ifs <;>
    simp_all <;>
    (intros; casesm* _ ∨ _ <;> (intros; linarith))

/-- C6: for a validly-constructed Current channel, the effective
calibration multiplier is `calibration_multiplier / shunt_resistance`,
additionally multiplied by 6250 on the 20 mA range, and the effective
offset is `calibration_offset - 25` on the 20 mA range and the raw offset
otherwise. -/
theorem C6_current_calibration (c : Analog.DAQAnalogCurrentChannel)
    (h : c.post_init = Except.ok ()) :
    c.modified_mxab_multiplier =
      c.mxab_multuplier / c.shunt_resistance *
        (if c.range = Analog.DAQCurrentRange.Current_20mA then 6250 else 1) ∧
    c.modified_mxab_offset =
      (if c.range = Analog.DAQCurrentRange.Current_20mA then c.mxab_offset - 25
        else c.mxab_offset) := by
  refine ⟨?_, rfl⟩
  simp only [Analog.DAQAnalogCurrentChannel.modified_mxab_multiplier]
  split_ifs
  · rw [mul_one_div]
  · rw [mul_one_div, mul_one]

/-- C6 witness: the 20 mA example channel passes validation and its
effective calibration values follow the claimed formulas. -/
theorem C6_current_calibration_witness :
    current_channel_example.post_init = Except.ok () ∧
    (current_channel_example.modified_mxab_multiplier =
        current_channel_example.mxab_multuplier /
            current_channel_example.shunt_resistance *
          (if current_channel_example.range = Analog.DAQCurrentRange.Current_20mA
            then 6250 else 1) ∧
      current_channel_example.modified_mxab_offset =
        (if current_channel_example.range = Analog.DAQCurrentRange.Current_20mA
          then current_channel_example.mxab_offset - 25
          else current_channel_example.mxab_offset)) :=
  ⟨rfl, C6_current_calibration current_channel_example rfl⟩

/-- C7: the 32-bit extra-bits field of a Current channel's main payload is
0x7000 with the low bit additionally set exactly when the 100 mA range is
selected — in the per-variant `encode` (token at index 4 of the payload)
and in the monolithic `extra_bits()` restricted to current ranges alike. -/
theorem C7_current_extra_bits :
    (∀ c : Analog.DAQAnalogCurrentChannel,
        c.encode.get? 4 =
          some (Chunk.intB (Int.ofNat
            (0x7000 |||
              (if c.range = Analog.DAQCurrentRange.Current_100mA then 0x0001
                else 0))))) ∧
    (∀ c : DAQAnalogChannel,
        c.mtype = DAQAnalogMeasuremenType.Current →
        (c.range = DAQRange.Current_20mA ∨ c.range = DAQRange.Current_100mA) →
        c.extra_bits =
          0x7000 ||| (if c.range = DAQRange.Current_100mA then 0x0001 else 0)) := by
  constructor
  · intro c
    rcases c with ⟨base, range, shunt⟩
    cases range <;> rfl
  · intro c hm hr
    rcases hr with hr | hr <;>
      simp [DAQAnalogChannel.extra_bits, hm, hr] <;> decide

/-- C7 witness: both halves of the extra-bits statement evaluated on
concrete current channels, hypotheses discharged. -/
theorem C7_current_extra_bits_witness :
    (current_channel_example.encode.get? 4 =
        some (Chunk.intB (Int.ofNat
          (0x7000 |||
            (if current_channel_example.range = Analog.DAQCurrentRange.Current_100mA
              then 0x0001 else 0))))) ∧
    current_monolithic_example.mtype = DAQAnalogMeasuremenType.Current ∧
    (current_monolithic_example.range = DAQRange.Current_20mA ∨
      current_monolithic_example.range = DAQRange.Current_100mA) ∧
    current_monolithic_example.extra_bits =
      0x7000 |||
        (if current_monolithic_example.range = DAQRange.Current_100mA then 0x0001
          else 0) :=
  ⟨C7_current_extra_bits.1 current_channel_example, rfl, Or.inr rfl,
    C7_current_extra_bits.2 current_monolithic_example rfl (Or.inr rfl)⟩

/-- C8: the drift-correction flag (bit 4, the single bit of
`DAQConfigBits.DRIFT_CORRECTION`) is set in `bits()` exactly when
`drift_correction` is set or the speed is not FAST. -/
theorem C8_drift_correction_bit :
    DAQConfigBits.DRIFT_CORRECTION.value = 2 ^ 4 ∧
    ∀ cfg : DAQConfiguration,
      (cfg.bits.testBit 4 = true ↔
        (cfg.drift_correction = true ∨ cfg.speed ≠ DAQConfigSpeed.FAST)) := by
  refine ⟨rfl, fun cfg => ?_⟩
  rcases cfg with ⟨speed, fahr, tout, drift, tot, triggers, itime, atime, ach, cch⟩
  simp only [DAQConfiguration.bits]
  rw [trigger_fold_testBit]
  cases speed <;> cases drift <;> cases tout <;> cases fahr <;> cases tot <;>
    simp <;> decide

/-- C10: `bits()` depends on the trigger list only through the bitwise OR
of its elements' codes; in particular it is invariant under permuting the
list and under duplicating any of its entries. -/
theorem C10_trigger_invariance :
    (∀ (cfg : DAQConfiguration) (l₂ : List DAQConfigTrigger),
        trigger_or cfg.triggers = trigger_or l₂ →
        cfg.bits = ({ cfg with triggers := l₂ } : DAQConfiguration).bits) ∧
    (∀ (cfg : DAQConfiguration) (l₂ : List DAQConfigTrigger),
        cfg.triggers.Perm l₂ →
        cfg.bits = ({ cfg with triggers := l₂ } : DAQConfiguration).bits) ∧
    (∀ (cfg : DAQConfiguration) (t : DAQConfigTrigger),
        t ∈ cfg.triggers →
        ({ cfg with triggers := t :: cfg.triggers } : DAQConfiguration).bits =
          cfg.bits) := by
  have key : ∀ (cfg : DAQConfiguration) (l₂ : List DAQConfigTrigger),
      trigger_or cfg.triggers = trigger_or l₂ →
      cfg.bits = ({ cfg with triggers := l₂ } : DAQConfiguration).bits := by
    intro cfg l₂ h
    simp only [DAQConfiguration.bits]
    rw [foldl_lor_eq, foldl_lor_eq, h]
  refine ⟨key, fun cfg l₂ h => key cfg l₂ (trigger_or_perm h), fun cfg t h => ?_⟩
  exact key { cfg with triggers := t :: cfg.triggers } cfg.triggers
    (trigger_or_mem_absorb h)

/-- C10 witness: duplicating the INTERVAL entry of the default trigger
list leaves the bitfield unchanged. -/
theorem C10_trigger_invariance_witness :
    DAQConfigTrigger.INTERVAL ∈ [DAQConfigTrigger.INTERVAL] ∧
    ({ triggers := [DAQConfigTrigger.INTERVAL, DAQConfigTrigger.INTERVAL] } :
        DAQConfiguration).bits =
      ({ triggers := [DAQConfigTrigger.INTERVAL] } : DAQConfiguration).bits :=
  ⟨List.Mem.head _,
    C10_trigger_invariance.2.2 { triggers := [DAQConfigTrigger.INTERVAL] }
      DAQConfigTrigger.INTERVAL (List.Mem.head _)⟩

end NetDAQ
